import Mathlib

/-!
# Verification of the RQAI call/session correlation and intake-ingestion pipeline

Shallow embedding of the intake pipeline of this repository:

* `src/routes/twilio.js` — the `/voice`, `/twilio-personalization` and
  `/receive-data` handlers (the operative ones: `src/index.js` mounts the
  twilio router before the intake router, both at `/`, and the twilio
  `/receive-data` handler always terminates the request, so it shadows the
  handler of `src/routes/intakeRoutes.js` for that path).
* `src/routes/intakeRoutes.js` — the `temp_calls` upsert.
* `src/services/intakeAgentService.js` — `processIntakeData` and
  `updateIntakeWithParsedData`.
* the `receive-data` iteration of `src/unnamed/part_009` — the variant that
  schedules the transcript parser asynchronously after ingestion.

Databases are lists of rows; `NOW()` is an explicit `Nat` parameter; each SQL
statement inside a transaction carries a step index so that an injected fault
(`failAt`) models a query throwing, which the handlers answer with `ROLLBACK`
(returning the database as it was at `BEGIN`) and an HTTP 500, exactly as the
JavaScript does.
-/

namespace RQAI

/-! ## String helpers (faithful to the JavaScript string operations) -/

/-- Does `pat` occur at the head of `l`? (`String.prototype.startsWith` /
the head test of a SQL `LIKE 'pat%'`). -/
def leadMatch : List Char → List Char → Bool
  | [], _ => true
  | _ :: _, [] => false
  | p :: ps, h :: hs => p == h && leadMatch ps hs

/-- Does `pat` occur anywhere in `l`? (SQL `LIKE '%pat%'`). -/
def hasSub (pat : List Char) : List Char → Bool
  | [] => pat.isEmpty
  | h :: t => leadMatch pat (h :: t) || hasSub pat t

/-- Replace the first occurrence of `pat` by `rep`
(JavaScript `String.prototype.replace` with a plain-string pattern). -/
def replaceOnceL (pat rep : List Char) : List Char → List Char
  | [] => []
  | h :: t =>
    if leadMatch pat (h :: t) then rep ++ (h :: t).drop pat.length
    else h :: replaceOnceL pat rep t

/-- SQL `x LIKE '%' || pat || '%'`. -/
def strContains (s pat : String) : Bool := hasSub pat.toList s.toList

/-- JavaScript `s.slice(-n)`: the last `n` characters (all of `s` if shorter). -/
def sliceLast (n : Nat) (s : String) : String :=
  String.mk (s.toList.drop (s.toList.length - n))

/-- The placeholder the normalization regex writes for a leading `+`. -/
def plusChars : List Char := ['P', 'L', 'U', 'S']

/-- `s.replace(/^(\+)/, 'PLUS')` on character lists. -/
def plusTag (l : List Char) : List Char :=
  match l with
  | [] => []
  | c :: t => if c == '+' then plusChars ++ t else c :: t

/-- The phone normalization of `src/routes/twilio.js`:
`s.replace(/^(\+)/, 'PLUS').replace(/[^0-9]/g, '').replace('PLUS', '+')`.
Note that the middle step deletes the letters of the `PLUS` placeholder as
well, so the result is always the bare digit string. -/
def jsNormalizePhone (s : String) : String :=
  String.mk (replaceOnceL plusChars ['+'] ((plusTag s.toList).filter Char.isDigit))

/-- JavaScript `s.replace(/^\+/, '')`. -/
def dropLeadPlus (s : String) : String :=
  match s.toList with
  | '+' :: t => String.mk t
  | _ => s

/-- SQL `REPLACE(REPLACE(x, '+', ''), '-', '')`. -/
def stripPlusMinus (s : String) : String :=
  String.mk (s.toList.filter (fun c => !(c == '+') && !(c == '-')))

/-- JavaScript `s.replace(/[^0-9]/g, '')`. -/
def filterDigitsStr (s : String) : String :=
  String.mk (s.toList.filter Char.isDigit)

/-- JavaScript truthiness of an optional string field
(`undefined`/`null` and `""` are falsy). -/
def truthy : Option String → Bool
  | none => false
  | some s => !(s == "")

/-- JavaScript `a || b` on optional string fields. -/
def jsOr (a b : Option String) : Option String := if truthy a then a else b

/-- JavaScript `a || null` on optional string fields. -/
def jsOrNull (a : Option String) : Option String := if truthy a then a else none

/-- SQL `=` between two nullable values: `NULL` compares equal to nothing. -/
def sqlEq (a b : Option String) : Bool :=
  match a, b with
  | some x, some y => x == y
  | _, _ => false

/-- Case-insensitive SQL comparison `LOWER(a) = LOWER(b)`. -/
def lowerEq (a b : String) : Bool := a.toLower == b.toLower

/-! ## Data model

Row shapes follow the `CREATE TABLE` statements of the repository
(`contacts.phone_number` and the `call_sid` columns of `temp_calls` and
`call_log` are `UNIQUE`; `call_log.status` defaults to `'pending'`). -/

structure Contact where
  id : Nat
  phone_number : String
  user_id : Nat
  first_name : String
deriving Repr, DecidableEq

structure TempCall where
  call_sid : String
  phone_number : String
  created_at : Nat
deriving Repr, DecidableEq

structure CallLogEntry where
  call_sid : String
  phone_number : String
  status : String
  created_at : Nat
  processed_at : Option Nat
  updated_at : Option Nat
deriving Repr, DecidableEq

structure IntakeRow where
  id : Nat
  phone_number : Option String
  contact_id : Option Nat
  user_id : Option Nat
  communication_style : Option String
  values : Option String
  professional_goals : Option String
  partnership_expectations : Option String
  raw_transcript : Option String
  created_at : Nat
  updated_at : Option Nat
deriving Repr, DecidableEq

structure DB where
  contacts : List Contact
  temp_calls : List TempCall
  call_log : List CallLogEntry
  intake_responses : List IntakeRow
  next_intake_id : Nat
deriving Repr, DecidableEq

/-- The webhook payload field bag (all the aliases the handlers read). -/
structure Payload where
  callSid : Option String
  call_sid : Option String
  caller : Option String
  caller_id : Option String
  phone_number : Option String
  communication_style : Option String
  values : Option String
  professional_goals : Option String
  partnership_expectations : Option String
  raw_transcript : Option String
deriving Repr, DecidableEq

/-! ## Call-log statements -/

/-- `INSERT INTO call_log (call_sid, phone_number, status, created_at)
VALUES (...) ON CONFLICT (call_sid) DO NOTHING`. When the handler omits the
`status` column the table default `'pending'` applies. -/
def callLogInsertIgnore (l : List CallLogEntry) (sid phone status : String)
    (now : Nat) : List CallLogEntry :=
  if l.any (fun e => e.call_sid == sid) then l
  else l ++ [{ call_sid := sid, phone_number := phone, status := status,
               created_at := now, processed_at := none, updated_at := none }]

/-- `UPDATE call_log SET status = 'processed', processed_at = NOW()
WHERE call_sid = $2`. -/
def callLogMarkProcessed (l : List CallLogEntry) (sid : String) (now : Nat) :
    List CallLogEntry :=
  l.map (fun e =>
    if e.call_sid == sid then { e with status := "processed", processed_at := some now }
    else e)

/-! ## Contact resolution of `src/routes/twilio.js` `/receive-data` -/

/-- The fallback disjunction of the second contact query (lines 365-377):
match on the bare digits, the digits with a leading `+`, a `LIKE` on the last
ten digits, or the stored number with `+`/`-` stripped. -/
def fallbackMatch (ct : Contact) (digitsOnly : String) : Bool :=
  ct.phone_number == digitsOnly ||
  ct.phone_number == "+" ++ digitsOnly ||
  strContains ct.phone_number (sliceLast 10 digitsOnly) ||
  stripPlusMinus ct.phone_number == filterDigitsStr digitsOnly

/-- The two-stage contact lookup of the twilio `/receive-data` handler:
exact match on the normalized number first, then the fallback query. -/
def lookupContact (contacts : List Contact) (normalizedPhone : String) :
    Option Contact :=
  match contacts.find? (fun ct => ct.phone_number == normalizedPhone) with
  | some ct => some ct
  | none => contacts.find? (fun ct => fallbackMatch ct (dropLeadPlus normalizedPhone))

/-! ## The twilio `/receive-data` handler (Eleven Labs callback branch)

`failAt = some k` injects a thrown error into the `k`-th SQL statement of the
branch actually executed; the handler then performs `ROLLBACK` — every
rollback returns the database exactly as it was at `BEGIN` — and answers 500.
`failAt = none` is the clean run. -/

structure HttpResp where
  status : Nat
  intake_id : Option Nat
  contact_id : Option Nat
  normalized_phone : Option String
deriving Repr, DecidableEq

def respErr (s : Nat) : HttpResp :=
  { status := s, intake_id := none, contact_id := none, normalized_phone := none }

def resp500 : HttpResp := respErr 500

def hit (failAt : Option Nat) (k : Nat) : Bool := failAt == some k

/-- Guard one SQL statement: if the injected fault targets step `k`, the
transaction aborts, is rolled back to `db0`, and the handler answers 500. -/
def withStep (failAt : Option Nat) (k : Nat) (db0 : DB) (cont : DB × HttpResp) :
    DB × HttpResp :=
  if hit failAt k then (db0, resp500) else cont

/-- The tail of the ingestion (twilio.js lines 352-447): renormalize the
resolved phone, find the contact (404 + rollback when absent, diagnostics
carrying the normalized number), insert the intake row, and when a `callSid`
is present mark the call log `processed` and delete the `temp_calls` entry,
then commit. `db0` is the `BEGIN` snapshot, `db` the working state. -/
def insertAndClean (f : Option Nat) (k : Nat) (now : Nat) (db0 db : DB)
    (p : Payload) (ct : Contact) : DB × HttpResp :=
  withStep f k db0 <|
    let row : IntakeRow :=
      { id := db.next_intake_id, phone_number := none,
        contact_id := some ct.id, user_id := some ct.user_id,
        communication_style := jsOrNull p.communication_style,
        values := jsOrNull p.values,
        professional_goals := jsOrNull p.professional_goals,
        partnership_expectations := jsOrNull p.partnership_expectations,
        raw_transcript := jsOrNull p.raw_transcript,
        created_at := now, updated_at := none }
    let db1 := { db with intake_responses := db.intake_responses ++ [row],
                         next_intake_id := db.next_intake_id + 1 }
    let ok : HttpResp :=
      { status := 200, intake_id := some row.id, contact_id := some ct.id,
        normalized_phone := none }
    if truthy p.callSid then
      withStep f (k + 1) db0 <|
        let db2 := { db1 with
          call_log := callLogMarkProcessed db1.call_log (p.callSid.getD "") now }
        withStep f (k + 2) db0 <|
          let db3 := { db2 with
            temp_calls := db2.temp_calls.filter (fun t => !(t.call_sid == p.callSid.getD "")) }
          withStep f (k + 3) db0 (db3, ok)
    else
      withStep f (k + 1) db0 (db1, ok)

def finishIngest (f : Option Nat) (k : Nat) (now : Nat) (db0 db : DB)
    (p : Payload) (phoneNumber : String) : DB × HttpResp :=
  let normalizedPhone := jsNormalizePhone phoneNumber
  withStep f k db0 <|
    match db.contacts.find? (fun ct => ct.phone_number == normalizedPhone) with
    | some ct => insertAndClean f (k + 2) now db0 db p ct
    | none =>
      withStep f (k + 1) db0 <|
        match db.contacts.find? (fun ct => fallbackMatch ct (dropLeadPlus normalizedPhone)) with
        | some ct => insertAndClean f (k + 2) now db0 db p ct
        | none =>
          (db0, { status := 404, intake_id := none, contact_id := none,
                  normalized_phone := some normalizedPhone })

/-- The `callSid` resolution chain (twilio.js lines 291-350): `temp_calls`
exact, `call_log` case-insensitive, `call_log` suffix `LIKE`, then the
`phone_number` field of the payload, else 404 `Call not found` + rollback. -/
def resolveBySid (f : Option Nat) (now : Nat) (db : DB) (p : Payload)
    (sid : String) : DB × HttpResp :=
  withStep f 0 db <|
    match db.temp_calls.find? (fun t => t.call_sid == sid) with
    | some t => finishIngest f 3 now db db p t.phone_number
    | none =>
      withStep f 1 db <|
        match db.call_log.find? (fun e => lowerEq e.call_sid sid) with
        | some e => finishIngest f 3 now db db p e.phone_number
        | none =>
          withStep f 2 db <|
            match db.call_log.find? (fun e => strContains e.call_sid (sliceLast 8 sid)) with
            | some e => finishIngest f 3 now db db p e.phone_number
            | none =>
              if truthy p.phone_number then
                let np := jsNormalizePhone (p.phone_number.getD "")
                withStep f 3 db <|
                  let db1 := { db with
                    call_log := callLogInsertIgnore db.call_log sid np "from_payload" now }
                  finishIngest f 4 now db db1 p np
              else (db, respErr 404)

/-- The Eleven Labs callback branch of `POST /receive-data` in
`src/routes/twilio.js` (entered when `callSid` or `caller` is truthy; the
JWT branch of the same route is out of the intake pipeline's scope). All
statements run between `BEGIN` and `COMMIT`; every rollback path returns the
original `db`. -/
def receiveDataTwilio (f : Option Nat) (now : Nat) (db : DB) (p : Payload) :
    DB × HttpResp :=
  if truthy p.caller then
    let phoneNumber := jsNormalizePhone (p.caller.getD "")
    let sid0 := if truthy p.callSid then p.callSid.getD ""
                else "caller-" ++ toString now
    withStep f 0 db <|
      let db1 := { db with
        call_log := callLogInsertIgnore db.call_log sid0 phoneNumber "direct_caller" now }
      finishIngest f 1 now db db1 p phoneNumber
  else if truthy p.callSid then
    resolveBySid f now db p (p.callSid.getD "")
  else
    (db, respErr 400)

/-! ## The `/voice` handler of `src/routes/twilio.js` (outbound-call start)

`INSERT INTO temp_calls (call_sid, phone_number, created_at) VALUES (...)`
carries no `ON CONFLICT` clause while `temp_calls.call_sid` is `UNIQUE`, so a
duplicate session id makes the insert throw; the handler then rolls the
transaction back and serves the fallback "technical difficulties" markup. -/

inductive VoiceResp
  | redirectToAgent (caller : String)
  | fallbackMessage
deriving Repr, DecidableEq

def voiceHandler (now : Nat) (db : DB) (From CallSid : String) : DB × VoiceResp :=
  if db.temp_calls.any (fun t => t.call_sid == CallSid) then
    (db, VoiceResp.fallbackMessage)
  else
    ({ db with
        temp_calls := db.temp_calls ++ [{ call_sid := CallSid, phone_number := From, created_at := now }],
        call_log := callLogInsertIgnore db.call_log CallSid From "pending" now },
     VoiceResp.redirectToAgent From)

/-! ## The `/twilio-personalization` handler of `src/routes/twilio.js` -/

inductive PersonaBody
  | unauthorized
  | invalidPayload
  | rejectionScript
  | intakeScript (contactId : Nat) (firstName : String)
  | errorScript
deriving Repr, DecidableEq

/-- `POST /twilio-personalization`: 403 on a configured-but-mismatched shared
secret, 400 when `caller_id` or `call_sid` is missing, otherwise 200 — with
the intake script for a recognized caller, the polite rejection script for an
unrecognized one, and the apologetic error script when a database statement
throws (`failAt` injects the throw; the catch block answers 200). The
contact lookup is an exact match on `caller_id`. -/
def personalization (expectedSecret incomingSecret : Option String)
    (failAt : Option Nat) (now : Nat) (db : DB)
    (caller_id call_sid : Option String) : DB × Nat × PersonaBody :=
  if truthy expectedSecret && !(incomingSecret == expectedSecret) then
    (db, 403, PersonaBody.unauthorized)
  else if !(truthy caller_id) || !(truthy call_sid) then
    (db, 400, PersonaBody.invalidPayload)
  else
    let cid := caller_id.getD ""
    let sid := call_sid.getD ""
    if hit failAt 0 then (db, 200, PersonaBody.errorScript)
    else
      match db.contacts.find? (fun ct => ct.phone_number == cid) with
      | some ct =>
        if hit failAt 1 then (db, 200, PersonaBody.errorScript)
        else
          ({ db with call_log :=
              callLogInsertIgnore db.call_log sid cid "existing_contact_personalization" now },
           200, PersonaBody.intakeScript ct.id ct.first_name)
      | none =>
        if hit failAt 1 then (db, 200, PersonaBody.errorScript)
        else
          ({ db with call_log :=
              callLogInsertIgnore db.call_log sid cid "unrecognized_caller" now },
           200, PersonaBody.rejectionScript)

/-! ## The Session Registry upsert of `src/routes/intakeRoutes.js`

`INSERT INTO temp_calls ... ON CONFLICT (call_sid) DO UPDATE SET
phone_number = $2, created_at = NOW()` (lines 136-140). -/

def tempUpsert (l : List TempCall) (sid phone : String) (now : Nat) :
    List TempCall :=
  if l.any (fun t => t.call_sid == sid) then
    l.map (fun t =>
      if t.call_sid == sid then { t with phone_number := phone, created_at := now } else t)
  else l ++ [{ call_sid := sid, phone_number := phone, created_at := now }]

/-! ## `processIntakeData` of `src/services/intakeAgentService.js`

Check-then-write keyed on the caller phone number: if an intake row with
`phone_number = data.caller` exists it is updated in place, otherwise a new
row is inserted. A SQL `NULL` caller matches no row. -/

structure IntakeData where
  caller : Option String
  callSid : Option String
  communication_style : Option String
  values : Option String
  professional_goals : Option String
  partnership_expectations : Option String
  raw_transcript : Option String
deriving Repr, DecidableEq

def processIntakeData (now : Nat) (db : DB) (d : IntakeData) : DB × Nat :=
  match db.intake_responses.find? (fun r => sqlEq r.phone_number d.caller) with
  | some r =>
    ({ db with intake_responses := db.intake_responses.map (fun q =>
        if q.id == r.id then
          { q with communication_style := d.communication_style,
                   values := d.values,
                   professional_goals := d.professional_goals,
                   partnership_expectations := d.partnership_expectations,
                   raw_transcript := d.raw_transcript,
                   updated_at := some now }
        else q) },
     r.id)
  | none =>
    let row : IntakeRow :=
      { id := db.next_intake_id, phone_number := d.caller,
        contact_id := none, user_id := none,
        communication_style := d.communication_style,
        values := d.values,
        professional_goals := d.professional_goals,
        partnership_expectations := d.partnership_expectations,
        raw_transcript := d.raw_transcript,
        created_at := now, updated_at := some now }
    ({ db with intake_responses := db.intake_responses ++ [row],
               next_intake_id := db.next_intake_id + 1 },
     row.id)

/-! ## `updateIntakeWithParsedData` of `src/services/intakeAgentService.js`

One `UPDATE intake_responses SET <four fields>, updated_at = NOW()
WHERE id = $5` inside its own transaction. -/

structure ParsedData where
  communication_style : Option String
  values : Option String
  professional_goals : Option String
  partnership_expectations : Option String
deriving Repr, DecidableEq

def setParsedFields (now : Nat) (pd : ParsedData) (r : IntakeRow) : IntakeRow :=
  { r with communication_style := pd.communication_style,
           values := pd.values,
           professional_goals := pd.professional_goals,
           partnership_expectations := pd.partnership_expectations,
           updated_at := some now }

def updateIntakeWithParsedData (now : Nat) (rows : List IntakeRow)
    (intakeResponseId : Nat) (pd : ParsedData) : List IntakeRow :=
  rows.map (fun r => if r.id == intakeResponseId then setParsedFields now pd r else r)

/-! ## The ingestion iteration of `src/unnamed/part_009`

This is the `receive-data` variant that schedules the transcript parser as a
fire-and-forget background task after committing the intake row. The
response is assembled before any parsing work runs; the scheduled tasks are
returned as data next to the response. When the resolved caller is invalid
and a session id is present, the source attempts a `temp_calls`/`call_log`
lookup but dereferences the connection handle before its declaration (lines
43-68); the resulting `ReferenceError` is swallowed by the inner
`catch (lookupError)`, so that lookup never produces a phone number and the
handler falls through to the hardcoded test fallback `'+15132017748'`
(line 75) and ingests normally. -/

inductive Task
  | parseTranscript (intakeId : Nat) (transcript : String)
deriving Repr, DecidableEq

structure P9Result where
  db : DB
  status : Nat
  intakeResponseId : Option Nat
  phone_attempted : Option String
  tasks : List Task
deriving Repr, DecidableEq

def invalidCaller (o : Option String) : Bool := !(truthy o) || o == some "unknown"

def part009ReceiveData (now : Nat) (db : DB) (p : Payload) : P9Result :=
  let cp0 := jsOr (jsOr p.caller_id p.caller) p.phone_number
  let sid := jsOr p.call_sid p.callSid
  let callerPhone := if invalidCaller cp0 then "+15132017748" else cp0.getD ""
  match db.contacts.find? (fun ct => ct.phone_number == callerPhone) with
  | none =>
    { db := db, status := 404, intakeResponseId := none,
      phone_attempted := some callerPhone, tasks := [] }
  | some ct =>
    let row : IntakeRow :=
      { id := db.next_intake_id, phone_number := none,
        contact_id := some ct.id, user_id := some ct.user_id,
        communication_style := jsOrNull p.communication_style,
        values := jsOrNull p.values,
        professional_goals := jsOrNull p.professional_goals,
        partnership_expectations := jsOrNull p.partnership_expectations,
        raw_transcript := jsOrNull p.raw_transcript,
        created_at := now, updated_at := none }
    let db1 := { db with intake_responses := db.intake_responses ++ [row],
                         next_intake_id := db.next_intake_id + 1 }
    let db2 :=
      if truthy sid then
        { db1 with
          call_log := callLogMarkProcessed db1.call_log (sid.getD "") now,
          temp_calls := db1.temp_calls.filter (fun t => !(t.call_sid == sid.getD "")) }
      else db1
    let tasks :=
      match jsOrNull p.raw_transcript with
      | some t =>
        if truthy p.communication_style && truthy p.values &&
           truthy p.professional_goals && truthy p.partnership_expectations then []
        else [Task.parseTranscript row.id t]
      | none => []
    { db := db2, status := 200, intakeResponseId := some row.id,
      phone_attempted := none, tasks := tasks }

/-! ## The reachable call-log writers as a step system (for monotonicity) -/

inductive SysStep
  | voiceStep (now : Nat) (From CallSid : String)
  | personaStep (expectedSecret incomingSecret : Option String)
      (failAt : Option Nat) (now : Nat) (caller_id call_sid : Option String)
  | receiveStep (failAt : Option Nat) (now : Nat) (p : Payload)

def applyStep (db : DB) : SysStep → DB
  | SysStep.voiceStep now f s => (voiceHandler now db f s).1
  | SysStep.personaStep es is fa now cid sid => (personalization es is fa now db cid sid).1
  | SysStep.receiveStep fa now p => (receiveDataTwilio fa now db p).1

def runSteps (db : DB) (l : List SysStep) : DB := l.foldl applyStep db

/-- The status recorded for a session id (absent row mapped to `none`). -/
def logStatus (l : List CallLogEntry) (sid : String) : Option String :=
  (l.find? (fun e => e.call_sid == sid)).map (fun e => e.status)

/-- Pipeline-stage rank: no row yet, then any intermediate status, then the
terminal `processed`. -/
def stageRank : Option String → Nat
  | none => 0
  | some s => if s == "processed" then 2 else 1

/-! ## Concrete fixtures -/

/-- A payload with every field absent. -/
def basePayload : Payload :=
  { callSid := none, call_sid := none, caller := none, caller_id := none,
    phone_number := none, communication_style := none, values := none,
    professional_goals := none, partnership_expectations := none,
    raw_transcript := none }

def exContact : Contact :=
  { id := 42, phone_number := "+15551234567", user_id := 7, first_name := "Ann" }

def exOtherContact : Contact :=
  { id := 43, phone_number := "+15550000000", user_id := 7, first_name := "Bob" }

def exDB : DB :=
  { contacts := [exContact], temp_calls := [], call_log := [],
    intake_responses := [], next_intake_id := 1 }

def exPayload : Payload :=
  { basePayload with caller := some "+15551234567", callSid := some "CA123",
                     raw_transcript := some "hello there" }

/-! ## Normalization lemmas -/

lemma replaceOnceL_plus_of_digits (l : List Char)
    (h : ∀ c ∈ l, c.isDigit = true) : replaceOnceL plusChars ['+'] l = l := by
  induction l with
  | nil => rfl
  | cons c t ih =>
    have hc : c.isDigit = true := h c (List.mem_cons_self c t)
    have hP : ('P' == c) = false := by
      cases hcP : ('P' == c) with
      | false => rfl
      | true =>
        have : 'P' = c := by exact beq_iff_eq.mp hcP
        subst this
        simp at hc
    have ht : ∀ c ∈ t, c.isDigit = true := fun c hc => h c (List.mem_cons_of_mem _ hc)
    simp only [replaceOnceL, plusChars, leadMatch, hP, Bool.false_and, if_neg Bool.false_ne_true]
    simp only [plusChars] at ih
    rw [ih ht]

lemma jsNormalizePhone_eq_digits (s : String) :
    jsNormalizePhone s = String.mk ((plusTag s.toList).filter Char.isDigit) := by
  unfold jsNormalizePhone
  rw [replaceOnceL_plus_of_digits]
  intro c hc
  exact List.of_mem_filter hc

lemma toList_mk (l : List Char) : (String.mk l).toList = l := rfl

lemma jsNormalizePhone_idem (s : String) :
    jsNormalizePhone (jsNormalizePhone s) = jsNormalizePhone s := by
  rw [jsNormalizePhone_eq_digits s]
  set l2 := (plusTag s.toList).filter Char.isDigit with hl2
  have hdig : ∀ c ∈ l2, c.isDigit = true := fun c hc => List.of_mem_filter hc
  rw [jsNormalizePhone_eq_digits, toList_mk]
  have htag : plusTag l2 = l2 := by
    cases hc : l2 with
    | nil => rfl
    | cons c t =>
      have hcd : c.isDigit = true := by
        have : c ∈ l2 := by rw [hc]; exact List.mem_cons_self c t
        exact hdig c this
      have hne : (c == '+') = false := by
        cases hb : (c == '+') with
        | false => rfl
        | true =>
          have : c = '+' := beq_iff_eq.mp hb
          subst this
          simp at hcd
      simp [plusTag, hne]
  rw [htag]
  rw [List.filter_eq_self.mpr hdig]

/-! ## C9: phone normalization equivalence -/

/-- C9: with a contact stored as `"+15551234567"`, ingesting a payload whose
phone field is `"+15551234567"`, `"15551234567"` or `"5551234567"` succeeds
(HTTP 200) and each time resolves to that same contact (id 42): the first two
via the `+`-prefixed fallback equality, the third via the last-ten-digits
`LIKE` match. -/
theorem C9_phone_normalization_equivalence :
    ((receiveDataTwilio none 1 exDB { basePayload with caller := some "+15551234567" }).2.contact_id
        = some exContact.id ∧
     (receiveDataTwilio none 1 exDB { basePayload with caller := some "+15551234567" }).2.status = 200) ∧
    ((receiveDataTwilio none 1 exDB { basePayload with caller := some "15551234567" }).2.contact_id
        = some exContact.id ∧
     (receiveDataTwilio none 1 exDB { basePayload with caller := some "15551234567" }).2.status = 200) ∧
    ((receiveDataTwilio none 1 exDB { basePayload with caller := some "5551234567" }).2.contact_id
        = some exContact.id ∧
     (receiveDataTwilio none 1 exDB { basePayload with caller := some "5551234567" }).2.status = 200) := by
  decide

/-! ## C1: idempotent ingestion -/

/-- C1 counterexample: delivering the very same payload (same session id
`"CA123"`, same caller) twice to the twilio `/receive-data` ingestion handler
persists two Intake Response rows, not one — the handler runs a plain
`INSERT` per delivery with no duplicate check. -/
theorem C1_counterexample :
    (receiveDataTwilio none 1 exDB exPayload).1.intake_responses.length = 1 ∧
    (receiveDataTwilio none 2 (receiveDataTwilio none 1 exDB exPayload).1
        exPayload).1.intake_responses.length = 2 := by
  decide

lemma intakeRow_update_phone (x : IntakeRow) (d : IntakeData) (now : Nat) :
    ({ x with communication_style := d.communication_style,
              values := d.values,
              professional_goals := d.professional_goals,
              partnership_expectations := d.partnership_expectations,
              raw_transcript := d.raw_transcript,
              updated_at := some now } : IntakeRow).phone_number = x.phone_number := rfl

lemma processIntakeData_keeps_match (now : Nat) (db : DB) (d : IntakeData)
    (c : String) (hc : d.caller = some c) :
    ((processIntakeData now db d).1.intake_responses.find?
        (fun r => sqlEq r.phone_number d.caller)).isSome = true := by
  unfold processIntakeData
  cases h0 : db.intake_responses.find? (fun r => sqlEq r.phone_number d.caller) with
  | some r =>
    simp only [h0]
    rw [List.find?_map]
    have hpred : ((fun (x : IntakeRow) => sqlEq x.phone_number d.caller) ∘
        (fun (q : IntakeRow) => if q.id == r.id then
          { q with communication_style := d.communication_style,
                   values := d.values,
                   professional_goals := d.professional_goals,
                   partnership_expectations := d.partnership_expectations,
                   raw_transcript := d.raw_transcript,
                   updated_at := some now } else q))
        = (fun (x : IntakeRow) => sqlEq x.phone_number d.caller) := by
      funext q
      by_cases hq : q.id = r.id
      · simp [Function.comp, hq]
      · simp [Function.comp, hq]
    rw [hpred, h0]
    rfl
  | none =>
    simp only [h0]
    rw [List.find?_append, h0]
    simp [sqlEq, hc]

lemma processIntakeData_length_of_found (now : Nat) (db : DB) (d : IntakeData)
    (r : IntakeRow)
    (h : db.intake_responses.find? (fun q => sqlEq q.phone_number d.caller) = some r) :
    (processIntakeData now db d).1.intake_responses.length
      = db.intake_responses.length := by
  unfold processIntakeData
  rw [h]
  simp

/-- C1 amended: the check-then-write iteration `processIntakeData` of
`src/services/intakeAgentService.js` is the one that coalesces duplicate
deliveries — keyed on the caller phone number, not the session id: when the
payload carries a caller phone number, a second delivery of the same payload
updates the existing row in place and leaves the row count unchanged. -/
theorem C1_amended_processIntakeData_idempotent (now1 now2 : Nat) (db : DB)
    (d : IntakeData) (c : String) (hc : d.caller = some c) :
    (processIntakeData now2 (processIntakeData now1 db d).1 d).1.intake_responses.length
      = (processIntakeData now1 db d).1.intake_responses.length := by
  have hfind := processIntakeData_keeps_match now1 db d c hc
  obtain ⟨r, hr⟩ := Option.isSome_iff_exists.mp hfind
  exact processIntakeData_length_of_found now2 _ d r hr

/-- C1 amended, witness: two deliveries of a concrete payload through
`processIntakeData` leave exactly the one row the first delivery created. -/
theorem C1_amended_witness :
    (processIntakeData 2 (processIntakeData 1 exDB
        { caller := some "+15551234567", callSid := none,
          communication_style := none, values := none, professional_goals := none,
          partnership_expectations := none,
          raw_transcript := some "hello" }).1
        { caller := some "+15551234567", callSid := none,
          communication_style := none, values := none, professional_goals := none,
          partnership_expectations := none,
          raw_transcript := some "hello" }).1.intake_responses.length
      = (processIntakeData 1 exDB
        { caller := some "+15551234567", callSid := none,
          communication_style := none, values := none, professional_goals := none,
          partnership_expectations := none,
          raw_transcript := some "hello" }).1.intake_responses.length :=
  C1_amended_processIntakeData_idempotent 1 2 exDB _ "+15551234567" rfl

/-! ## C5: the personalization endpoint and non-200 statuses -/

/-- C5 counterexample: a personalization request without `caller_id` is
answered 400, not 200 — the endpoint does return non-200 statuses (403 on a
bad shared secret, 400 on a payload missing `caller_id`/`call_sid`). -/
theorem C5_counterexample :
    (personalization none none none 0 exDB none (some "CA1")).2.1 = 400 ∧
    ¬ (personalization none none none 0 exDB none (some "CA1")).2.1 = 200 := by
  decide

/-- C5 amended: every personalization request that passes the shared-secret
check and carries truthy `caller_id` and `call_sid` is answered 200 — for a
recognized caller (intake script), an unrecognized caller (polite rejection
script), and when any database statement throws (apologetic error script). -/
theorem C5_amended_always_200_after_guards (expectedSecret incomingSecret : Option String)
    (failAt : Option Nat) (now : Nat) (db : DB) (caller_id call_sid : Option String)
    (hsecret : (truthy expectedSecret && !(incomingSecret == expectedSecret)) = false)
    (hcid : truthy caller_id = true) (hsid : truthy call_sid = true) :
    (personalization expectedSecret incomingSecret failAt now db caller_id call_sid).2.1
      = 200 := by
  unfold personalization
  rw [hsecret, hcid, hsid]
  simp only [Bool.not_true, Bool.false_or, Bool.or_self, if_neg Bool.false_ne_true]
  by_cases h0 : hit failAt 0 = true
  · simp [h0]
  · simp only [Bool.not_eq_true] at h0
    simp only [h0, if_neg Bool.false_ne_true]
    cases hfind : db.contacts.find? (fun ct => ct.phone_number == caller_id.getD "") with
    | some ct =>
      by_cases h1 : hit failAt 1 = true
      · simp [hfind, h1]
      · simp only [Bool.not_eq_true] at h1
        simp [hfind, h1]
    | none =>
      by_cases h1 : hit failAt 1 = true
      · simp [hfind, h1]
      · simp only [Bool.not_eq_true] at h1
        simp [hfind, h1]

/-- C5 amended, witness: a recognized caller with matching secret handling
gets a 200. -/
theorem C5_amended_witness :
    (personalization none none none 3 exDB (some "+15551234567") (some "CA1")).2.1 = 200 :=
  C5_amended_always_200_after_guards none none none 3 exDB
    (some "+15551234567") (some "CA1") (by decide) (by decide) (by decide)

/-! ## C6: the Session Registry put -/

/-- The database for the C6 counterexample: `temp_calls` already holds the
session id `"CA1"` mapped to `"+111"`. -/
def dupDB : DB :=
  { contacts := [], temp_calls := [{ call_sid := "CA1", phone_number := "+111", created_at := 0 }],
    call_log := [], intake_responses := [], next_intake_id := 1 }

/-- C6 counterexample: the put performed when an outbound call is initiated
(`/voice`) is a plain `INSERT` into `temp_calls`, whose `call_sid` column is
`UNIQUE` — a second call event for session `"CA1"` with a new phone number
makes the insert throw: the transaction rolls back, the fallback markup is
served, and the stored phone number stays `"+111"` instead of last-write-wins
`"+222"`. -/
theorem C6_counterexample :
    voiceHandler 5 dupDB "+222" "CA1" = (dupDB, VoiceResp.fallbackMessage) ∧
    (voiceHandler 5 dupDB "+222" "CA1").1.temp_calls
      = [{ call_sid := "CA1", phone_number := "+111", created_at := 0 }] := by
  decide

lemma countP_eq_zero_of_le_one_of_match {l : List TempCall} {t : TempCall}
    {sid : String} (h : (t :: l).countP (fun u => u.call_sid == sid) ≤ 1)
    (ht : (t.call_sid == sid) = true) :
    l.countP (fun u => u.call_sid == sid) = 0 := by
  rw [List.countP_cons_of_pos (fun u => u.call_sid == sid) l ht] at h
  omega

/-- C6 amended: the `ON CONFLICT (call_sid) DO UPDATE` put of
`src/routes/intakeRoutes.js` is the genuine upsert: it never throws, after it
there is exactly one live `temp_calls` entry for the session id and it holds
the most recent phone number (last-write-wins), and entries of other session
ids are untouched. The put performed when an outbound call is initiated
(`/voice`) is instead a plain `INSERT` that fails on a duplicate session id
(see the counterexample). -/
theorem C6_amended_tempUpsert_upsert (l : List TempCall) (sid phone : String)
    (now : Nat) (h : l.countP (fun t => t.call_sid == sid) ≤ 1) :
    (tempUpsert l sid phone now).filter (fun t => t.call_sid == sid)
        = [{ call_sid := sid, phone_number := phone, created_at := now }] ∧
    (tempUpsert l sid phone now).filter (fun t => !(t.call_sid == sid))
        = l.filter (fun t => !(t.call_sid == sid)) := by
  induction l with
  | nil =>
    constructor
    · simp [tempUpsert, List.filter]
    · simp [tempUpsert, List.filter]
  | cons t ts ih =>
    by_cases ht : (t.call_sid == sid) = true
    · -- head matches: the rest contains no entry for this sid
      have hts0 : ts.countP (fun u => u.call_sid == sid) = 0 :=
        countP_eq_zero_of_le_one_of_match h ht
      have htsall : ∀ u ∈ ts, ¬ ((u.call_sid == sid) = true) := by
        intro u hu
        have := List.countP_eq_zero.mp hts0 u hu
        simpa using this
      have hany : ((t :: ts).any (fun u => u.call_sid == sid)) = true := by
        simp [List.any_cons, ht]
      have hsid : t.call_sid = sid := beq_iff_eq.mp ht
      have hmap : ts.map (fun u =>
          if u.call_sid = sid then
            { u with phone_number := phone, created_at := now } else u)
          = ts := by
        conv_rhs => rw [← List.map_id ts]
        apply List.map_congr_left
        intro u hu
        have hne := htsall u hu
        simp only [Bool.not_eq_true, beq_eq_false_iff_ne] at hne
        simp [hne]
      have hstep : tempUpsert (t :: ts) sid phone now
          = ({ t with phone_number := phone, created_at := now } : TempCall) :: ts := by
        simp [tempUpsert, hany, ht, hsid, hmap]
      have hnil : ts.filter (fun u => u.call_sid == sid) = [] :=
        List.filter_eq_nil_iff.mpr htsall
      constructor
      · rw [hstep]
        simp [List.filter_cons, hsid, hnil]
      · rw [hstep]
        simp [List.filter_cons, hsid]
    · -- head does not match this sid
      have htf : (t.call_sid == sid) = false := by
        cases hb : (t.call_sid == sid) with
        | false => rfl
        | true => exact absurd hb ht
      have hne : ¬ t.call_sid = sid := by simpa using htf
      have h' : ts.countP (fun u => u.call_sid == sid) ≤ 1 := by
        rw [List.countP_cons, htf] at h
        simp at h
        omega
      obtain ⟨ih1, ih2⟩ := ih h'
      have hstep : tempUpsert (t :: ts) sid phone now
          = t :: tempUpsert ts sid phone now := by
        by_cases hany : (ts.any (fun u => u.call_sid == sid)) = true
        · have hanyc : ((t :: ts).any (fun u => u.call_sid == sid)) = true := by
            simp [List.any_cons, hany]
          simp [tempUpsert, hanyc, hany, htf, hne]
        · have hanyf : (ts.any (fun u => u.call_sid == sid)) = false := by
            cases hb : (ts.any (fun u => u.call_sid == sid)) with
            | false => rfl
            | true => exact absurd hb hany
          have hanyc : ((t :: ts).any (fun u => u.call_sid == sid)) = false := by
            simp [List.any_cons, hanyf, htf]
          simp [tempUpsert, hanyc, hanyf]
      constructor
      · rw [hstep]
        rw [List.filter_cons]
        simp only [htf, if_neg Bool.false_ne_true]
        exact ih1
      · rw [hstep]
        rw [List.filter_cons, List.filter_cons]
        simp only [htf, Bool.not_false, if_pos rfl]
        rw [ih2]

/-- C6 amended, witness: upserting a new phone number for an existing session
id rewrites that entry in place. -/
theorem C6_amended_witness :
    (tempUpsert [{ call_sid := "CA1", phone_number := "+111", created_at := 0 }]
        "CA1" "+222" 5).filter (fun t => t.call_sid == "CA1")
      = [{ call_sid := "CA1", phone_number := "+222", created_at := 5 }] ∧
    (tempUpsert [{ call_sid := "CA1", phone_number := "+111", created_at := 0 }]
        "CA1" "+222" 5).filter (fun t => !(t.call_sid == "CA1"))
      = ([{ call_sid := "CA1", phone_number := "+111", created_at := 0 }] :
          List TempCall).filter (fun t => !(t.call_sid == "CA1")) :=
  C6_amended_tempUpsert_upsert
    [{ call_sid := "CA1", phone_number := "+111", created_at := 0 }]
    "CA1" "+222" 5 (by decide)

/-! ## Clean-run lemmas for the twilio `/receive-data` handler -/

lemma withStep_none (k : Nat) (db0 : DB) (c : DB × HttpResp) :
    withStep none k db0 c = c := rfl

lemma receiveDataTwilio_none_caller (now : Nat) (db : DB) (p : Payload)
    (c : String) (hc : p.caller = some c) (hne : ¬ c = "") :
    receiveDataTwilio none now db p
      = finishIngest none 1 now db
          { db with call_log := (callLogInsertIgnore db.call_log
              (if truthy p.callSid then p.callSid.getD ""
               else "caller-" ++ toString now)
              (jsNormalizePhone c) "direct_caller" now) }
          p (jsNormalizePhone c) := by
  have htc : truthy (some c) = true := by
    simpa [truthy] using hne
  simp only [receiveDataTwilio, hc, htc, if_pos rfl, Option.getD_some, withStep_none]
  simp

lemma finishIngest_none_404 (k now : Nat) (db0 db : DB) (p : Payload)
    (phone : String)
    (h : lookupContact db.contacts (jsNormalizePhone phone) = none) :
    finishIngest none k now db0 db p phone
      = (db0, { status := 404, intake_id := none, contact_id := none,
                normalized_phone := some (jsNormalizePhone phone) }) := by
  unfold lookupContact at h
  unfold finishIngest
  cases hfe : db.contacts.find? (fun ct => ct.phone_number == jsNormalizePhone phone) with
  | some ct => rw [hfe] at h; cases h
  | none =>
    rw [hfe] at h
    have h2 : db.contacts.find?
        (fun ct => fallbackMatch ct (dropLeadPlus (jsNormalizePhone phone))) = none := h
    simp only [withStep_none, hfe, h2]

lemma finishIngest_none_found (k now : Nat) (db0 db : DB) (p : Payload)
    (phone : String) (ct : Contact)
    (h : lookupContact db.contacts (jsNormalizePhone phone) = some ct) :
    finishIngest none k now db0 db p phone
      = insertAndClean none (k + 2) now db0 db p ct := by
  unfold lookupContact at h
  unfold finishIngest
  cases hfe : db.contacts.find? (fun ct => ct.phone_number == jsNormalizePhone phone) with
  | some ct' =>
    rw [hfe] at h
    have h2 : some ct' = some ct := h
    injection h2 with h'
    subst h'
    simp only [withStep_none, hfe]
  | none =>
    rw [hfe] at h
    have h2 : db.contacts.find?
        (fun ct => fallbackMatch ct (dropLeadPlus (jsNormalizePhone phone))) = some ct := h
    simp only [withStep_none, hfe, h2]

lemma insertAndClean_none_resp (k now : Nat) (db0 db : DB) (p : Payload)
    (ct : Contact) :
    (insertAndClean none k now db0 db p ct).2
      = { status := 200, intake_id := some db.next_intake_id,
          contact_id := some ct.id, normalized_phone := none } := by
  unfold insertAndClean
  by_cases h : truthy p.callSid = true
  · simp [withStep_none, h]
  · simp [withStep_none, h]

/-! ## C2: direct phone number takes precedence over the session id -/

/-- C2: in the operative `/receive-data` handler (`src/routes/twilio.js`;
mounted before the `intakeRoutes` router, whose shadowed iteration would
consult the session id first), whenever the payload carries a truthy direct
caller phone number, the resolved contact is exactly the one obtained by
normalizing that number and looking it up in the Contact Directory — for
every database state, hence regardless of which (possibly different) contact
the Session Registry or Call Log would associate with the payload's session
id. -/
theorem C2_direct_phone_takes_precedence (now : Nat) (db : DB) (p : Payload)
    (c : String) (ct : Contact) (hc : p.caller = some c) (hne : ¬ c = "")
    (hfound : lookupContact db.contacts (jsNormalizePhone c) = some ct) :
    (receiveDataTwilio none now db p).2.contact_id = some ct.id ∧
    (receiveDataTwilio none now db p).2.status = 200 := by
  rw [receiveDataTwilio_none_caller now db p c hc hne]
  rw [finishIngest_none_found 1 now db _ p (jsNormalizePhone c) ct
    (by simpa [jsNormalizePhone_idem] using hfound)]
  rw [insertAndClean_none_resp]
  constructor
  · rfl
  · rfl

/-- C2 witness: with contact 42 stored under the caller's number, contact 43
stored under another number, and the Session Registry mapping the payload's
session id `"CA9"` to contact 43's number, ingestion still resolves to
contact 42 — the direct phone number wins. -/
theorem C2_witness :
    ((receiveDataTwilio none 1
        { contacts := [exContact, exOtherContact],
          temp_calls := [{ call_sid := "CA9", phone_number := "+15550000000", created_at := 0 }],
          call_log := [], intake_responses := [], next_intake_id := 1 }
        { basePayload with caller := some "+15551234567",
                           callSid := some "CA9" }).2.contact_id = some exContact.id ∧
     (receiveDataTwilio none 1
        { contacts := [exContact, exOtherContact],
          temp_calls := [{ call_sid := "CA9", phone_number := "+15550000000", created_at := 0 }],
          call_log := [], intake_responses := [], next_intake_id := 1 }
        { basePayload with caller := some "+15551234567",
                           callSid := some "CA9" }).2.status = 200) :=
  C2_direct_phone_takes_precedence 1 _ _ "+15551234567" exContact rfl
    (by decide) (by decide)

/-! ## C8: unknown contact -/

/-- C8: when the payload carries a truthy caller phone number that matches no
contact under any of the normalization attempts (exact, digits-only, with
`+`, last-ten-digits `LIKE`, `+`/`-`-stripped), the twilio `/receive-data`
handler rolls back, answers 404, carries the normalized phone number in the
diagnostic payload, and leaves the database — in particular the Intake
Response table — exactly as it was. -/
theorem C8_contact_not_found (now : Nat) (db : DB) (p : Payload) (c : String)
    (hc : p.caller = some c) (hne : ¬ c = "")
    (hnone : lookupContact db.contacts (jsNormalizePhone c) = none) :
    receiveDataTwilio none now db p
      = (db, { status := 404, intake_id := none, contact_id := none,
               normalized_phone := some (jsNormalizePhone c) }) := by
  rw [receiveDataTwilio_none_caller now db p c hc hne]
  rw [finishIngest_none_404 1 now db _ p (jsNormalizePhone c)
    (by simpa [jsNormalizePhone_idem] using hnone)]
  rw [jsNormalizePhone_idem]

/-- C8 witness: an unknown caller number yields a 404 carrying the normalized
number and an unchanged database. -/
theorem C8_witness :
    receiveDataTwilio none 1 exDB
        { basePayload with caller := some "+19998887777" }
      = (exDB, { status := 404, intake_id := none, contact_id := none,
                 normalized_phone := some (jsNormalizePhone "+19998887777") }) :=
  C8_contact_not_found 1 exDB _ "+19998887777" rfl (by decide) (by decide)

/-! ## C10: the transcript-parser update is an in-place, id-keyed update -/

lemma update_filter_ne (now : Nat) (idq : Nat) (pd : ParsedData) :
    ∀ rows : List IntakeRow,
      (updateIntakeWithParsedData now rows idq pd).filter (fun r => !(r.id == idq))
        = rows.filter (fun r => !(r.id == idq)) := by
  intro rows
  induction rows with
  | nil => rfl
  | cons r t ih =>
    unfold updateIntakeWithParsedData at ih ⊢
    rw [List.map_cons]
    by_cases hr : (r.id == idq) = true
    · rw [if_pos hr, List.filter_cons, List.filter_cons]
      have h1 : (!(setParsedFields now pd r).id == idq) = false := by
        simp [setParsedFields, hr]
      have h2 : (!(r.id == idq)) = false := by simp [hr]
      rw [h1, h2]
      simp only [if_neg Bool.false_ne_true]
      exact ih
    · have hrf : (r.id == idq) = false := by
        cases hb : (r.id == idq) with
        | false => rfl
        | true => exact absurd hb hr
      rw [if_neg hr, List.filter_cons, List.filter_cons]
      have h2 : (!(r.id == idq)) = true := by simp [hrf]
      rw [h2]
      simp only [if_pos rfl]
      rw [ih]

/-- C10: `updateIntakeWithParsedData` updates the previously ingested row in
place, matched by intake record id: it never inserts (or removes) a row, it
leaves every row's id and raw transcript unchanged, the matched row gets
exactly the four parsed structured fields (in the model this is the single
`UPDATE ... SET` statement `setParsedFields`), and rows with a different id
are untouched. -/
theorem C10_update_intake_in_place (now : Nat) (rows : List IntakeRow)
    (idq : Nat) (pd : ParsedData) :
    (updateIntakeWithParsedData now rows idq pd).length = rows.length ∧
    (updateIntakeWithParsedData now rows idq pd).map (fun r => r.id)
      = rows.map (fun r => r.id) ∧
    (updateIntakeWithParsedData now rows idq pd).map (fun r => r.raw_transcript)
      = rows.map (fun r => r.raw_transcript) ∧
    (updateIntakeWithParsedData now rows idq pd).find? (fun r => r.id == idq)
      = (rows.find? (fun r => r.id == idq)).map (setParsedFields now pd) ∧
    (updateIntakeWithParsedData now rows idq pd).filter (fun r => !(r.id == idq))
      = rows.filter (fun r => !(r.id == idq)) := by
  refine ⟨?_, ?_, ?_, ?_, update_filter_ne now idq pd rows⟩
  · exact List.length_map rows _
  · unfold updateIntakeWithParsedData
    rw [List.map_map]
    apply List.map_congr_left
    intro r _
    by_cases hr : r.id = idq
    · simp [hr, setParsedFields]
    · simp [hr]
  · unfold updateIntakeWithParsedData
    rw [List.map_map]
    apply List.map_congr_left
    intro r _
    by_cases hr : r.id = idq
    · simp [hr, setParsedFields]
    · simp [hr]
  · unfold updateIntakeWithParsedData
    rw [List.find?_map]
    have hcomp : ((fun (r : IntakeRow) => r.id == idq) ∘
        (fun r => if r.id == idq then setParsedFields now pd r else r))
        = (fun (r : IntakeRow) => r.id == idq) := by
      funext r
      by_cases hr : r.id = idq
      · simp [Function.comp, hr, setParsedFields]
      · simp [Function.comp, hr]
    rw [hcomp]
    cases hf : rows.find? (fun r => r.id == idq) with
    | none => rfl
    | some r =>
      have hp : (r.id == idq) = true :=
        @List.find?_some IntakeRow (fun r => r.id == idq) r rows hf
      have hpe : r.id = idq := beq_iff_eq.mp hp
      simp [hpe]

/-! ## C7: asynchronous transcript parsing -/

/-- C7: in the ingestion iteration that implements transcript parsing
(`src/unnamed/part_009`), for every successfully ingested payload that has no
structured fields but does include a (non-empty) raw transcript, the handler
schedules exactly one Transcript Parser task — as returned data, after the
intake row has been persisted, referencing that row's id — and its HTTP
response (status and body) is already fully determined without running the
parser: the response never waits on model inference. -/
theorem C7_schedules_async_parse (now : Nat) (db : DB) (p : Payload) (t : String)
    (h1 : p.communication_style = none) (h2 : p.values = none)
    (h3 : p.professional_goals = none) (h4 : p.partnership_expectations = none)
    (ht : p.raw_transcript = some t) (htne : ¬ t = "")
    (hok : (part009ReceiveData now db p).status = 200) :
    (part009ReceiveData now db p).tasks
      = [Task.parseTranscript db.next_intake_id t] ∧
    (part009ReceiveData now db p).intakeResponseId = some db.next_intake_id ∧
    ∃ row ∈ (part009ReceiveData now db p).db.intake_responses,
      row.id = db.next_intake_id ∧ row.raw_transcript = some t ∧
      row.communication_style = none ∧ row.values = none ∧
      row.professional_goals = none ∧ row.partnership_expectations = none := by
  unfold part009ReceiveData at hok ⊢
  simp only [] at hok ⊢
  cases hfind : db.contacts.find? (fun ct => ct.phone_number ==
      (if invalidCaller (jsOr (jsOr p.caller_id p.caller) p.phone_number) then
        "+15132017748"
       else (jsOr (jsOr p.caller_id p.caller) p.phone_number).getD "")) with
  | none =>
    rw [hfind] at hok
    simp at hok
  | some ct =>
    have hbe : (t == "") = false := by
      cases hb : (t == "") with
      | false => rfl
      | true => exact absurd (beq_iff_eq.mp hb) htne
    refine ⟨?_, ?_, ?_⟩
    · simp [hfind, h1, h2, h3, h4, ht, jsOrNull, truthy, hbe]
    · simp [hfind]
    · simp only [hfind]
      by_cases hsid : truthy (jsOr p.call_sid p.callSid) = true
      · simp only [hsid, if_pos rfl]
        refine ⟨_, List.mem_append_right _ (List.mem_singleton_self _),
          rfl, ?_, ?_, ?_, ?_, ?_⟩
        · simp [ht, jsOrNull, truthy, hbe]
        · simp [h1, jsOrNull, truthy]
        · simp [h2, jsOrNull, truthy]
        · simp [h3, jsOrNull, truthy]
        · simp [h4, jsOrNull, truthy]
      · simp only [Bool.not_eq_true] at hsid
        simp only [hsid, if_neg Bool.false_ne_true]
        refine ⟨_, List.mem_append_right _ (List.mem_singleton_self _),
          rfl, ?_, ?_, ?_, ?_, ?_⟩
        · simp [ht, jsOrNull, truthy, hbe]
        · simp [h1, jsOrNull, truthy]
        · simp [h2, jsOrNull, truthy]
        · simp [h3, jsOrNull, truthy]
        · simp [h4, jsOrNull, truthy]

/-- C7 witness: a transcript-only payload for a known caller yields the
scheduled parse task for the freshly persisted row. -/
theorem C7_witness :
    (part009ReceiveData 3 exDB
        { basePayload with caller_id := some "+15551234567",
                           call_sid := some "CA9",
                           raw_transcript := some "hello there" }).tasks
      = [Task.parseTranscript exDB.next_intake_id "hello there"] ∧
    (part009ReceiveData 3 exDB
        { basePayload with caller_id := some "+15551234567",
                           call_sid := some "CA9",
                           raw_transcript := some "hello there" }).intakeResponseId
      = some exDB.next_intake_id ∧
    ∃ row ∈ (part009ReceiveData 3 exDB
        { basePayload with caller_id := some "+15551234567",
                           call_sid := some "CA9",
                           raw_transcript := some "hello there" }).db.intake_responses,
      row.id = exDB.next_intake_id ∧ row.raw_transcript = some "hello there" ∧
      row.communication_style = none ∧ row.values = none ∧
      row.professional_goals = none ∧ row.partnership_expectations = none :=
  C7_schedules_async_parse 3 exDB _ "hello there" rfl rfl rfl rfl rfl
    (by decide) (by decide)

/-! ## C3: transactional atomicity of the twilio `/receive-data` ingestion -/

lemma withStep_cases (f : Option Nat) (k : Nat) (db0 : DB) (c : DB × HttpResp) :
    withStep f k db0 c = c ∨ withStep f k db0 c = (db0, resp500) := by
  unfold withStep
  by_cases h : hit f k = true
  · right
    simp [h]
  · left
    simp [h]

lemma insertAndClean_atomic (f : Option Nat) (k now : Nat) (db0 db : DB)
    (p : Payload) (ct : Contact) :
    insertAndClean f k now db0 db p ct = insertAndClean none k now db0 db p ct ∨
    insertAndClean f k now db0 db p ct = (db0, resp500) := by
  unfold insertAndClean
  simp only [withStep_none]
  rcases withStep_cases f k db0 _ with h0 | h0
  · rw [h0]
    by_cases ht : truthy p.callSid = true
    · simp only [ht, if_pos rfl]
      rcases withStep_cases f (k + 1) db0 _ with h1 | h1
      · rw [h1]
        rcases withStep_cases f (k + 2) db0 _ with h2 | h2
        · rw [h2]
          exact withStep_cases f (k + 3) db0 _
        · right
          exact h2
      · right
        exact h1
    · simp only [Bool.not_eq_true] at ht
      simp only [ht, if_neg Bool.false_ne_true]
      exact withStep_cases f (k + 1) db0 _
  · right
    exact h0

lemma finishIngest_atomic (f : Option Nat) (k now : Nat) (db0 db : DB)
    (p : Payload) (phone : String) :
    finishIngest f k now db0 db p phone = finishIngest none k now db0 db p phone ∨
    finishIngest f k now db0 db p phone = (db0, resp500) := by
  unfold finishIngest
  simp only [withStep_none]
  rcases withStep_cases f k db0 _ with h0 | h0
  · rw [h0]
    cases hfe : db.contacts.find?
        (fun ct => ct.phone_number == jsNormalizePhone phone) with
    | some ct =>
      simp only [hfe]
      exact insertAndClean_atomic f (k + 2) now db0 db p ct
    | none =>
      simp only [hfe]
      rcases withStep_cases f (k + 1) db0 _ with h1 | h1
      · rw [h1]
        cases hff : db.contacts.find?
            (fun ct => fallbackMatch ct (dropLeadPlus (jsNormalizePhone phone))) with
        | some ct =>
          simp only [hff]
          exact insertAndClean_atomic f (k + 2) now db0 db p ct
        | none =>
          simp only [hff]
          exact Or.inl trivial
      · right
        exact h1
  · right
    exact h0

lemma resolveBySid_atomic (f : Option Nat) (now : Nat) (db : DB) (p : Payload)
    (sid : String) :
    resolveBySid f now db p sid = resolveBySid none now db p sid ∨
    resolveBySid f now db p sid = (db, resp500) := by
  unfold resolveBySid
  simp only [withStep_none]
  rcases withStep_cases f 0 db _ with h0 | h0
  · rw [h0]
    cases h1 : db.temp_calls.find? (fun t => t.call_sid == sid) with
    | some t =>
      simp only [h1]
      exact finishIngest_atomic f 3 now db db p t.phone_number
    | none =>
      simp only [h1]
      rcases withStep_cases f 1 db _ with h2 | h2
      · rw [h2]
        cases h3 : db.call_log.find? (fun e => lowerEq e.call_sid sid) with
        | some e =>
          simp only [h3]
          exact finishIngest_atomic f 3 now db db p e.phone_number
        | none =>
          simp only [h3]
          rcases withStep_cases f 2 db _ with h4 | h4
          · rw [h4]
            cases h5 : db.call_log.find?
                (fun e => strContains e.call_sid (sliceLast 8 sid)) with
            | some e =>
              simp only [h5]
              exact finishIngest_atomic f 3 now db db p e.phone_number
            | none =>
              simp only [h5]
              by_cases h6 : truthy p.phone_number = true
              · simp only [h6, if_pos rfl]
                rcases withStep_cases f 3 db _ with h7 | h7
                · rw [h7]
                  exact finishIngest_atomic f 4 now db _ p _
                · right
                  exact h7
              · simp only [Bool.not_eq_true] at h6
                simp only [h6, if_neg Bool.false_ne_true]
                exact Or.inl trivial
          · right
            exact h4
      · right
        exact h2
  · right
    exact h0

/-- C3: every database statement of one ingestion through the twilio
`/receive-data` handler runs between `BEGIN` and `COMMIT`, and a thrown error
at any statement (`failAt` injects one at an arbitrary position) triggers a
full rollback: such a run either behaves exactly like the fault-free run
(the fault sits beyond the statements this payload executes) or returns the
database exactly as it was at `BEGIN` — no partial row or partial mutation —
together with an HTTP 500 for the webhook caller. -/
theorem C3_ingestion_is_atomic (f : Option Nat) (now : Nat) (db : DB)
    (p : Payload) :
    receiveDataTwilio f now db p = receiveDataTwilio none now db p ∨
    receiveDataTwilio f now db p = (db, resp500) := by
  unfold receiveDataTwilio
  by_cases hc : truthy p.caller = true
  · simp only [hc, if_pos rfl, withStep_none]
    rcases withStep_cases f 0 db _ with h0 | h0
    · rw [h0]
      exact finishIngest_atomic f 1 now db _ p _
    · right
      exact h0
  · simp only [Bool.not_eq_true] at hc
    simp only [hc, if_neg Bool.false_ne_true]
    by_cases hs : truthy p.callSid = true
    · simp only [hs, if_pos rfl]
      exact resolveBySid_atomic f now db p (p.callSid.getD "")
    · simp only [Bool.not_eq_true] at hs
      simp only [hs, if_neg Bool.false_ne_true]
      exact Or.inl trivial

/-! ## C4: Call Log status monotonicity -/

/-- Between two call-log states: every session id's pipeline-stage rank is at
least what it was. -/
def LogMono (l l' : List CallLogEntry) : Prop :=
  ∀ sid : String, stageRank (logStatus l sid) ≤ stageRank (logStatus l' sid)

lemma logMono_refl (l : List CallLogEntry) : LogMono l l := fun _ => le_refl _

lemma logMono_trans {a b c : List CallLogEntry} (h1 : LogMono a b)
    (h2 : LogMono b c) : LogMono a c :=
  fun sid => le_trans (h1 sid) (h2 sid)

lemma stageRank_le_two (o : Option String) : stageRank o ≤ 2 := by
  cases o with
  | none => simp [stageRank]
  | some s =>
    unfold stageRank
    by_cases h : (s == "processed") = true
    · simp [h]
    · simp only [Bool.not_eq_true] at h
      simp [h]

lemma logMono_insertIgnore (l : List CallLogEntry) (sid0 ph st : String)
    (now : Nat) : LogMono l (callLogInsertIgnore l sid0 ph st now) := by
  intro sid
  unfold callLogInsertIgnore
  by_cases h : (l.any (fun e => e.call_sid == sid0)) = true
  · simp [h]
  · simp only [Bool.not_eq_true] at h
    simp only [h, if_neg Bool.false_ne_true]
    unfold logStatus
    rw [List.find?_append]
    cases hf : l.find? (fun e => e.call_sid == sid) with
    | some e => simp [Option.or]
    | none =>
      have h0 : stageRank (Option.map (fun (e : CallLogEntry) => e.status) none) = 0 := rfl
      rw [h0]
      exact Nat.zero_le _

lemma logMono_markProcessed (l : List CallLogEntry) (sid0 : String)
    (now : Nat) : LogMono l (callLogMarkProcessed l sid0 now) := by
  intro sid
  unfold callLogMarkProcessed logStatus
  rw [List.find?_map]
  have hcomp : ((fun (e : CallLogEntry) => e.call_sid == sid) ∘
      (fun e => if e.call_sid == sid0 then
        { e with status := "processed", processed_at := some now } else e))
      = (fun (e : CallLogEntry) => e.call_sid == sid) := by
    funext e
    by_cases he : e.call_sid = sid0
    · simp [Function.comp, he]
    · simp [Function.comp, he]
  rw [hcomp]
  cases hf : l.find? (fun e => e.call_sid == sid) with
  | none => simp
  | some e =>
    simp only [Option.map_some']
    by_cases he : e.call_sid = sid0
    · have hst : (if (e.call_sid == sid0) = true then
          { e with status := "processed", processed_at := some now } else e).status
          = "processed" := by simp [he]
      rw [hst]
      have h2 : stageRank (some "processed") = 2 := by simp [stageRank]
      rw [h2]
      exact stageRank_le_two _
    · have hge : (if (e.call_sid == sid0) = true then
          { e with status := "processed", processed_at := some now } else e) = e := by
        simp [he]
      rw [hge]

lemma insertIgnore_already (l : List CallLogEntry) (sid ph st : String)
    (n : Nat) (h : (l.any (fun e => e.call_sid == sid)) = true) :
    callLogInsertIgnore l sid ph st n = l := by
  simp [callLogInsertIgnore, h]

lemma insertAndClean_logMono (f : Option Nat) (k now : Nat) (db0 db : DB)
    (p : Payload) (ct : Contact) (h : LogMono db0.call_log db.call_log) :
    LogMono db0.call_log ((insertAndClean f k now db0 db p ct).1).call_log := by
  unfold insertAndClean
  rcases withStep_cases f k db0 _ with h0 | h0 <;> rw [h0]
  · by_cases ht : truthy p.callSid = true
    · simp only [ht, if_pos rfl]
      rcases withStep_cases f (k + 1) db0 _ with h1 | h1 <;> rw [h1]
      · rcases withStep_cases f (k + 2) db0 _ with h2 | h2 <;> rw [h2]
        · rcases withStep_cases f (k + 3) db0 _ with h3 | h3 <;> rw [h3]
          · exact logMono_trans h
              (logMono_markProcessed db.call_log (p.callSid.getD "") now)
          · exact logMono_refl _
        · exact logMono_refl _
      · exact logMono_refl _
    · simp only [Bool.not_eq_true] at ht
      simp only [ht, if_neg Bool.false_ne_true]
      rcases withStep_cases f (k + 1) db0 _ with h1 | h1 <;> rw [h1]
      · exact h
      · exact logMono_refl _
  · exact logMono_refl _

lemma finishIngest_logMono (f : Option Nat) (k now : Nat) (db0 db : DB)
    (p : Payload) (phone : String) (h : LogMono db0.call_log db.call_log) :
    LogMono db0.call_log ((finishIngest f k now db0 db p phone).1).call_log := by
  unfold finishIngest
  rcases withStep_cases f k db0 _ with h0 | h0 <;> rw [h0]
  · cases hfe : db.contacts.find?
        (fun ct => ct.phone_number == jsNormalizePhone phone) with
    | some ct =>
      simp only [hfe]
      exact insertAndClean_logMono f (k + 2) now db0 db p ct h
    | none =>
      simp only [hfe]
      rcases withStep_cases f (k + 1) db0 _ with h1 | h1 <;> rw [h1]
      · cases hff : db.contacts.find?
            (fun ct => fallbackMatch ct (dropLeadPlus (jsNormalizePhone phone))) with
        | some ct =>
          simp only [hff]
          exact insertAndClean_logMono f (k + 2) now db0 db p ct h
        | none =>
          simp only [hff]
          exact logMono_refl _
      · exact logMono_refl _
  · exact logMono_refl _

lemma resolveBySid_logMono (f : Option Nat) (now : Nat) (db : DB) (p : Payload)
    (sid : String) :
    LogMono db.call_log ((resolveBySid f now db p sid).1).call_log := by
  unfold resolveBySid
  rcases withStep_cases f 0 db _ with h0 | h0 <;> rw [h0]
  · cases h1 : db.temp_calls.find? (fun t => t.call_sid == sid) with
    | some t =>
      simp only [h1]
      exact finishIngest_logMono f 3 now db db p t.phone_number (logMono_refl _)
    | none =>
      simp only [h1]
      rcases withStep_cases f 1 db _ with h2 | h2 <;> rw [h2]
      · cases h3 : db.call_log.find? (fun e => lowerEq e.call_sid sid) with
        | some e =>
          simp only [h3]
          exact finishIngest_logMono f 3 now db db p e.phone_number (logMono_refl _)
        | none =>
          simp only [h3]
          rcases withStep_cases f 2 db _ with h4 | h4 <;> rw [h4]
          · cases h5 : db.call_log.find?
                (fun e => strContains e.call_sid (sliceLast 8 sid)) with
            | some e =>
              simp only [h5]
              exact finishIngest_logMono f 3 now db db p e.phone_number (logMono_refl _)
            | none =>
              simp only [h5]
              by_cases h6 : truthy p.phone_number = true
              · simp only [h6, if_pos rfl]
                rcases withStep_cases f 3 db _ with h7 | h7 <;> rw [h7]
                · exact finishIngest_logMono f 4 now db _ p _
                    (logMono_insertIgnore db.call_log sid
                      (jsNormalizePhone (p.phone_number.getD "")) "from_payload" now)
                · exact logMono_refl _
              · simp only [Bool.not_eq_true] at h6
                simp only [h6, if_neg Bool.false_ne_true]
                exact logMono_refl _
          · exact logMono_refl _
      · exact logMono_refl _
  · exact logMono_refl _

lemma receiveDataTwilio_logMono (f : Option Nat) (now : Nat) (db : DB)
    (p : Payload) :
    LogMono db.call_log ((receiveDataTwilio f now db p).1).call_log := by
  unfold receiveDataTwilio
  by_cases hc : truthy p.caller = true
  · simp only [hc, if_pos rfl]
    rcases withStep_cases f 0 db _ with h0 | h0 <;> rw [h0]
    · exact finishIngest_logMono f 1 now db _ p _
        (logMono_insertIgnore db.call_log _ _ "direct_caller" now)
    · exact logMono_refl _
  · simp only [Bool.not_eq_true] at hc
    simp only [hc, if_neg Bool.false_ne_true]
    by_cases hs : truthy p.callSid = true
    · simp only [hs, if_pos rfl]
      exact resolveBySid_logMono f now db p (p.callSid.getD "")
    · simp only [Bool.not_eq_true] at hs
      simp only [hs, if_neg Bool.false_ne_true]
      exact logMono_refl _

lemma voiceHandler_logMono (now : Nat) (db : DB) (From CallSid : String) :
    LogMono db.call_log ((voiceHandler now db From CallSid).1).call_log := by
  unfold voiceHandler
  by_cases h : (db.temp_calls.any (fun t => t.call_sid == CallSid)) = true
  · simp only [h, if_pos rfl]
    exact logMono_refl _
  · simp only [Bool.not_eq_true] at h
    simp only [h, if_neg Bool.false_ne_true]
    exact logMono_insertIgnore db.call_log CallSid From "pending" now

lemma personalization_logMono (es is : Option String) (fa : Option Nat)
    (now : Nat) (db : DB) (cid sid : Option String) :
    LogMono db.call_log ((personalization es is fa now db cid sid).1).call_log := by
  unfold personalization
  by_cases h1 : (truthy es && !(is == es)) = true
  · simp only [h1, if_pos rfl]
    exact logMono_refl _
  · simp only [Bool.not_eq_true] at h1
    simp only [h1, if_neg Bool.false_ne_true]
    by_cases h2 : (!(truthy cid) || !(truthy sid)) = true
    · simp only [h2, if_pos rfl]
      exact logMono_refl _
    · simp only [Bool.not_eq_true] at h2
      simp only [h2, if_neg Bool.false_ne_true]
      by_cases h3 : hit fa 0 = true
      · simp only [h3, if_pos rfl]
        exact logMono_refl _
      · simp only [Bool.not_eq_true] at h3
        simp only [h3, if_neg Bool.false_ne_true]
        cases h4 : db.contacts.find? (fun ct => ct.phone_number == cid.getD "") with
        | some ct =>
          simp only [h4]
          by_cases h5 : hit fa 1 = true
          · simp only [h5, if_pos rfl]
            exact logMono_refl _
          · simp only [Bool.not_eq_true] at h5
            simp only [h5, if_neg Bool.false_ne_true]
            exact logMono_insertIgnore db.call_log (sid.getD "") (cid.getD "")
              "existing_contact_personalization" now
        | none =>
          simp only [h4]
          by_cases h5 : hit fa 1 = true
          · simp only [h5, if_pos rfl]
            exact logMono_refl _
          · simp only [Bool.not_eq_true] at h5
            simp only [h5, if_neg Bool.false_ne_true]
            exact logMono_insertIgnore db.call_log (sid.getD "") (cid.getD "")
              "unrecognized_caller" now

lemma applyStep_logMono (db : DB) (s : SysStep) :
    LogMono db.call_log (applyStep db s).call_log := by
  cases s with
  | voiceStep now f sd => exact voiceHandler_logMono now db f sd
  | personaStep es is fa now cid sid => exact personalization_logMono es is fa now db cid sid
  | receiveStep fa now p => exact receiveDataTwilio_logMono fa now db p

lemma runSteps_logMono (db : DB) (steps : List SysStep) :
    LogMono db.call_log (runSteps db steps).call_log := by
  induction steps generalizing db with
  | nil => exact logMono_refl _
  | cons s t ih =>
    have h1 : runSteps db (s :: t) = runSteps (applyStep db s) t := rfl
    rw [h1]
    exact logMono_trans (applyStep_logMono db s) (ih (applyStep db s))

/-- C4: across every sequence of requests the running system serves (`/voice`
calls, personalization webhooks, twilio `/receive-data` ingestions — each
with arbitrary payloads and arbitrary injected statement faults), the Call
Log status recorded for any session id never regresses to an earlier
pipeline stage: its stage rank (no row < intermediate status < `processed`)
only grows. Moreover a duplicate write of the same status is an idempotent
no-op: re-running the `processed` update, or the conflict-guarded insert for
a session id already present, changes nothing. (The shadowed
`intakeRoutes.js` iteration of `/receive-data`, which is never reached
because the twilio router is mounted first and always answers, is the only
code that could have regressed a status.) -/
theorem C4_call_log_status_monotone :
    (∀ (db : DB) (steps : List SysStep) (sid : String),
        stageRank (logStatus db.call_log sid)
          ≤ stageRank (logStatus (runSteps db steps).call_log sid)) ∧
    (∀ (l : List CallLogEntry) (sid : String) (now : Nat),
        callLogMarkProcessed (callLogMarkProcessed l sid now) sid now
          = callLogMarkProcessed l sid now) ∧
    (∀ (l : List CallLogEntry) (sid ph st ph2 st2 : String) (n1 n2 : Nat),
        callLogInsertIgnore (callLogInsertIgnore l sid ph st n1) sid ph2 st2 n2
          = callLogInsertIgnore l sid ph st n1) := by
  refine ⟨fun db steps sid => runSteps_logMono db steps sid, ?_, ?_⟩
  · intro l sid now
    unfold callLogMarkProcessed
    rw [List.map_map]
    apply List.map_congr_left
    intro e _
    by_cases he : e.call_sid = sid
    · simp [Function.comp, he]
    · simp [Function.comp, he]
  · intro l sid ph st ph2 st2 n1 n2
    unfold callLogInsertIgnore
    by_cases h : (l.any (fun e => e.call_sid == sid)) = true
    · simp [h]
    · simp only [Bool.not_eq_true] at h
      simp only [h, if_neg Bool.false_ne_true]
      apply insertIgnore_already
      rw [List.any_append]
      simp

end RQAI
